import Mathlib

/-!
Verification of the CANpy DBC parser (`src/canpy/parser/dbc_parser.py`).

The development shallowly embeds the line-oriented parser: Python strings
become `String`/`List Char`, the regular expressions of each record grammar
become executable backtracking matchers over `List Char`, exceptions become
an `Except` error type, and the mutable `DBCParser` object becomes explicit
state passing over a `ParserState` record.  The entity-graph classes
(`CANBus`, `CANNode`, `CANMessage`, `CANSignal`, attribute definitions) are
not part of the repository snapshot, so their operations are modelled from
the specification where noted.
-/

set_option maxRecDepth 10000

/-! ## Python string primitives -/

/-- Python `\s` whitespace class (ASCII part): space, tab, newline, carriage
return, vertical tab, form feed. -/
def isPySpace (c : Char) : Bool :=
  c = ' ' || c = '\t' || c = '\n' || c = '\r' || c = Char.ofNat 11 || c = Char.ofNat 12

/-- Python `\S`: any non-whitespace character. -/
def isPyNonspace (c : Char) : Bool := !(isPySpace c)

/-- Python `str.strip()` on a character list: drop whitespace at both ends. -/
def stripL (cs : List Char) : List Char :=
  ((cs.dropWhile isPySpace).reverse.dropWhile isPySpace).reverse

/-- Python `str.strip()` on a `String`. -/
def pyStrip (s : String) : String := String.mk (stripL s.data)

/-- `cs` begins with the literal pattern `pat` (Python `str.startswith`). -/
def startsWithL (pat cs : List Char) : Bool := pat.isPrefixOf cs

/-- Python `line.strip()[-2:]`: the last two characters of the stripped line
(or the whole stripped line when it is shorter). -/
def lastTwoStripped (cs : List Char) : List Char :=
  let t := stripL cs
  t.drop (t.length - 2)

/-- The test `line.strip()[-2:] == '";'` used to finish a description. -/
def endsWithQuoteSemi (s : String) : Bool :=
  lastTwoStripped s.data = ['"', ';']

/-- Python `str.replace('";', '')`: delete every (non-overlapping, leftmost)
occurrence of the two-character pattern `";`. -/
def removeQuoteSemiL : List Char → List Char
| [] => []
| '"' :: ';' :: rest => removeQuoteSemiL rest
| c :: rest => c :: removeQuoteSemiL rest

/-- `str.replace('";', '')` on a `String`. -/
def removeQuoteSemi (s : String) : String := String.mk (removeQuoteSemiL s.data)

/-- Worker for `wordsL`: `cur` is the (reversed) word currently being read. -/
def wordsGo : List Char → List Char → List (List Char)
| [], cur => if cur.isEmpty then [] else [cur.reverse]
| c :: rest, cur =>
  if isPySpace c then
    if cur.isEmpty then wordsGo rest [] else cur.reverse :: wordsGo rest []
  else wordsGo rest (c :: cur)

/-- Split a character list at whitespace runs, dropping empty pieces. -/
def wordsL (cs : List Char) : List (List Char) := wordsGo cs []

/-- Python `re.sub('\s+', ' ', s).strip().split(' ')`: collapse whitespace,
strip, split on single blanks.  On an all-whitespace string Python yields
`['']`, i.e. one empty token. -/
def pySplitTokens (s : String) : List String :=
  match wordsL s.data with
  | [] => [""]
  | ws => ws.map String.mk

/-- Digit string to natural number, Python `int` on a `\d+` capture. -/
def digitsToNat (s : String) : Nat :=
  s.data.foldl (fun a c => 10 * a + (c.toNat - 48)) 0

/-! ## Regular-expression style matchers

Each Python `re.search` pattern is transcribed as an executable matcher over
`List Char` in continuation-passing style.  Greedy quantifiers try the
longest match first and backtrack through the continuation, exactly like the
backtracking regex engine.  `searchIn` reproduces `re.search` scanning every
start position left to right. -/

/-- Try `f n`, `f (n-1)`, ..., `f 0`, returning the first success. -/
def tryFrom0 {α : Type} (f : Nat → Option α) : Nat → Option α
| 0 => f 0
| n+1 => f (n+1) <|> tryFrom0 f n

/-- Try `f n`, `f (n-1)`, ..., `f 1`, returning the first success. -/
def tryFrom1 {α : Type} (f : Nat → Option α) : Nat → Option α
| 0 => none
| n+1 => f (n+1) <|> tryFrom1 f n

/-- Greedy `p*`: match as many `p`-characters as possible, backtracking
through the continuation `k matched rest`. -/
def gMany {α : Type} (p : Char → Bool) (cs : List Char)
    (k : List Char → List Char → Option α) : Option α :=
  tryFrom0 (fun i => k (cs.take i) (cs.drop i)) (cs.takeWhile p).length

/-- Greedy `p+`: like `gMany` but at least one character. -/
def gMany1 {α : Type} (p : Char → Bool) (cs : List Char)
    (k : List Char → List Char → Option α) : Option α :=
  tryFrom1 (fun i => k (cs.take i) (cs.drop i)) (cs.takeWhile p).length

/-- A literal piece of pattern. -/
def litP {α : Type} (pat cs : List Char) (k : List Char → Option α) : Option α :=
  if pat.isPrefixOf cs then k (cs.drop pat.length) else none

/-- Optional literal group `(pat)?`: try with the group first, then without. -/
def optLit {α : Type} (pat cs : List Char) (k : Bool → List Char → Option α) : Option α :=
  (if pat.isPrefixOf cs then k true (cs.drop pat.length) else none) <|> k false cs

/-- One character from a character class such as `[0|1]`. -/
def clsP {α : Type} (cls cs : List Char) (k : Char → List Char → Option α) : Option α :=
  match cs with
  | c :: rest => if cls.contains c then k c rest else none
  | [] => none

/-- `\d+` when followed by pattern that can never match a digit: the greedy
maximal run is the only viable choice, so no backtracking is needed. -/
def digits1Max {α : Type} (cs : List Char) (k : List Char → List Char → Option α) : Option α :=
  let run := cs.takeWhile Char.isDigit
  if run.isEmpty then none else k run (cs.drop run.length)

/-- The regex `.` metacharacter: any character except a newline. -/
def isDotChar (c : Char) : Bool := c != '\n'

/-- The optional group `(m\d+)?` of the signal grammar (greedy digits; the
following `\s*:` can never match a digit, so the maximal run is faithful). -/
def optMDigits {α : Type} (cs : List Char) (k : Option (List Char) → List Char → Option α) :
    Option α :=
  (match cs with
   | 'm' :: rest =>
     let run := rest.takeWhile Char.isDigit
     if run.isEmpty then none else k (some ('m' :: run)) (rest.drop run.length)
   | _ => none) <|> k none cs

/-- The optional group `(...)?`: any three non-newline characters, or nothing. -/
def opt3Dot {α : Type} (cs : List Char) (k : Option (List Char) → List Char → Option α) :
    Option α :=
  (match cs with
   | a :: b :: c :: rest =>
     if isDotChar a && isDotChar b && isDotChar c then k (some [a, b, c]) rest else none
   | _ => none) <|> k none cs

/-- The optional group `(.+)?`: greedy nonempty run first, then absence. -/
def optDotPlus {α : Type} (cs : List Char) (k : Option (List Char) → List Char → Option α) :
    Option α :=
  gMany1 isDotChar cs (fun m r => k (some m) r) <|> k none cs

/-- `re.search`: try the matcher at every start position, leftmost first. -/
def searchIn {α : Type} (m : List Char → Option α) : List Char → Option α
| [] => m []
| c :: rest => m (c :: rest) <|> searchIn m rest

/-! ## Record grammars: capture groups

One structure of captured groups per record kind, keeping the source's
group names (including the source's `is_multipexer` spelling). -/

/-- Captures of `VERSION\s+"(?P<version>\S+)"`. -/
def matchVersionAt (cs : List Char) : Option String :=
  litP "VERSION".data cs fun r0 =>
  gMany1 isPySpace r0 fun _ r1 =>
  litP "\"".data r1 fun r2 =>
  gMany1 isPyNonspace r2 fun v r3 =>
  litP "\"".data r3 fun _ =>
  some (String.mk v)

/-- `re.search` for the version grammar. -/
def searchVersion (cs : List Char) : Option String := searchIn matchVersionAt cs

/-- Captures of `BU_\s*:\s*(?P<nodes>.+)\s*` (the trailing `\s*` can always
match the empty string after the greedy `.+`). -/
def matchNodesAt (cs : List Char) : Option String :=
  litP "BU_".data cs fun r0 =>
  gMany isPySpace r0 fun _ r1 =>
  litP ":".data r1 fun r2 =>
  gMany isPySpace r2 fun _ r3 =>
  gMany1 isDotChar r3 fun ns _ =>
  some (String.mk ns)

/-- `re.search` for the node-list grammar. -/
def searchNodes (cs : List Char) : Option String := searchIn matchNodesAt cs

/-- Captures of the message grammar
`BO_\s+(?P<can_id>\d+)\s+(?P<name>\S+)\s*:\s*(?P<length>\d+)\s+(?P<sender>\S+)`. -/
structure BoCaps where
  can_id : String
  name : String
  length : String
  sender : String
deriving DecidableEq, Repr

/-- Matcher for the message grammar at a fixed position. -/
def matchMessageAt (cs : List Char) : Option BoCaps :=
  litP "BO_".data cs fun r0 =>
  gMany1 isPySpace r0 fun _ r1 =>
  digits1Max r1 fun cid r2 =>
  gMany1 isPySpace r2 fun _ r3 =>
  gMany1 isPyNonspace r3 fun nm r4 =>
  gMany isPySpace r4 fun _ r5 =>
  litP ":".data r5 fun r6 =>
  gMany isPySpace r6 fun _ r7 =>
  digits1Max r7 fun ln r8 =>
  gMany1 isPySpace r8 fun _ r9 =>
  gMany1 isPyNonspace r9 fun sd _ =>
  some ⟨String.mk cid, String.mk nm, String.mk ln, String.mk sd⟩

/-- `re.search` for the message grammar. -/
def searchMessage (cs : List Char) : Option BoCaps := searchIn matchMessageAt cs

/-- Captures of the signal grammar (group names as in the source, including
the misspelt `is_multipexer`):
`SG_\s+(?P<name>\S+)\s*(?P<is_multipexer>M)?(?P<multiplexer_id>m\d+)?\s*:\s*`
`(?P<start_bit>\d+)\|(?P<length>\d+)\@(?P<endianness>[0|1])(?P<sign>[\+|\-])\s*`
`\(\s*(?P<factor>\S+)\s*,\s*(?P<offset>\S+)\s*\)\s*\[\s*(?P<min_value>\S+)\s*\|\s*(?P<max_value>\S+)\s*\]`
`\s*"(?P<unit>\S*)"\s+(?P<receivers>.+)`. -/
structure SgCaps where
  name : String
  is_multipexer : Bool
  multiplexer_id : Option String
  start_bit : String
  length : String
  endianness : String
  sign : String
  factor : String
  offset : String
  min_value : String
  max_value : String
  unit : String
  receivers : String
deriving DecidableEq, Repr

/-- Matcher for the signal grammar at a fixed position. -/
def matchSignalAt (cs : List Char) : Option SgCaps :=
  litP "SG_".data cs fun r0 =>
  gMany1 isPySpace r0 fun _ r1 =>
  gMany1 isPyNonspace r1 fun nm r2 =>
  gMany isPySpace r2 fun _ r3 =>
  optLit "M".data r3 fun isM r4 =>
  optMDigits r4 fun mid r5 =>
  gMany isPySpace r5 fun _ r6 =>
  litP ":".data r6 fun r7 =>
  gMany isPySpace r7 fun _ r8 =>
  digits1Max r8 fun sb r9 =>
  litP "|".data r9 fun r10 =>
  digits1Max r10 fun ln r11 =>
  litP "@".data r11 fun r12 =>
  clsP ['0', '|', '1'] r12 fun e r13 =>
  clsP ['+', '|', '-'] r13 fun sg r14 =>
  gMany isPySpace r14 fun _ r15 =>
  litP "(".data r15 fun r16 =>
  gMany isPySpace r16 fun _ r17 =>
  gMany1 isPyNonspace r17 fun fa r18 =>
  gMany isPySpace r18 fun _ r19 =>
  litP ",".data r19 fun r20 =>
  gMany isPySpace r20 fun _ r21 =>
  gMany1 isPyNonspace r21 fun off r22 =>
  gMany isPySpace r22 fun _ r23 =>
  litP ")".data r23 fun r24 =>
  gMany isPySpace r24 fun _ r25 =>
  litP "[".data r25 fun r26 =>
  gMany isPySpace r26 fun _ r27 =>
  gMany1 isPyNonspace r27 fun mn r28 =>
  gMany isPySpace r28 fun _ r29 =>
  litP "|".data r29 fun r30 =>
  gMany isPySpace r30 fun _ r31 =>
  gMany1 isPyNonspace r31 fun mx r32 =>
  gMany isPySpace r32 fun _ r33 =>
  litP "]".data r33 fun r34 =>
  gMany isPySpace r34 fun _ r35 =>
  litP "\"".data r35 fun r36 =>
  gMany isPyNonspace r36 fun un r37 =>
  litP "\"".data r37 fun r38 =>
  gMany1 isPySpace r38 fun _ r39 =>
  gMany1 isDotChar r39 fun rcv _ =>
  some { name := String.mk nm, is_multipexer := isM, multiplexer_id := mid.map String.mk,
         start_bit := String.mk sb, length := String.mk ln,
         endianness := String.mk [e], sign := String.mk [sg],
         factor := String.mk fa, offset := String.mk off,
         min_value := String.mk mn, max_value := String.mk mx,
         unit := String.mk un, receivers := String.mk rcv }

/-- `re.search` for the signal grammar. -/
def searchSignal (cs : List Char) : Option SgCaps := searchIn matchSignalAt cs

/-- Captures of the description grammar
`CM_\s+(?P<node>BU_)?(?P<msg>BO_)?(?P<sig>SG_)?\s*(?P<can_id>\d*)?\s*(?P<name>\S*)?\s*"(?P<value>.+)`. -/
structure CmCaps where
  node : Bool
  msg : Bool
  sig : Bool
  can_id : String
  name : String
  value : String
deriving DecidableEq, Repr

/-- Matcher for the description grammar at a fixed position. -/
def matchDescriptionAt (cs : List Char) : Option CmCaps :=
  litP "CM_".data cs fun r0 =>
  gMany1 isPySpace r0 fun _ r1 =>
  optLit "BU_".data r1 fun bn r2 =>
  optLit "BO_".data r2 fun bm r3 =>
  optLit "SG_".data r3 fun bs r4 =>
  gMany isPySpace r4 fun _ r5 =>
  gMany Char.isDigit r5 fun cid r6 =>
  gMany isPySpace r6 fun _ r7 =>
  gMany isPyNonspace r7 fun nm r8 =>
  gMany isPySpace r8 fun _ r9 =>
  litP "\"".data r9 fun r10 =>
  gMany1 isDotChar r10 fun v _ =>
  some ⟨bn, bm, bs, String.mk cid, String.mk nm, String.mk v⟩

/-- `re.search` for the description grammar. -/
def searchDescription (cs : List Char) : Option CmCaps := searchIn matchDescriptionAt cs

/-- Matcher for the bus-configuration grammar `BS_\s*:\s*(?P<speed>\d+)?\s*`
at a fixed position; returns the optional speed capture. -/
def matchBusConfigAt (cs : List Char) : Option (Option String) :=
  litP "BS_".data cs fun r0 =>
  gMany isPySpace r0 fun _ r1 =>
  litP ":".data r1 fun r2 =>
  gMany isPySpace r2 fun _ r3 =>
  (let run := r3.takeWhile Char.isDigit
   if run.isEmpty then some none else some (some (String.mk run)))

/-- `re.search` for the bus-configuration grammar. -/
def searchBusConfig (cs : List Char) : Option (Option String) := searchIn matchBusConfigAt cs

/-- Captures of the attribute-definition grammar
`BA_DEF_\s+(?P<obj_type>...)?\s*"(?P<attr_name>\S+)"\s+(?P<attr_type>\S+)\s*(?P<attr_config>.+)?\s*;`.
Note `(?P<obj_type>...)?` captures ANY three characters. -/
structure BaCaps where
  obj_type : Option String
  attr_name : String
  attr_type : String
  attr_config : Option String
deriving DecidableEq, Repr

/-- Matcher for the attribute-definition grammar at a fixed position. -/
def matchAttrDefAt (cs : List Char) : Option BaCaps :=
  litP "BA_DEF_".data cs fun r0 =>
  gMany1 isPySpace r0 fun _ r1 =>
  opt3Dot r1 fun ot r2 =>
  gMany isPySpace r2 fun _ r3 =>
  litP "\"".data r3 fun r4 =>
  gMany1 isPyNonspace r4 fun nm r5 =>
  litP "\"".data r5 fun r6 =>
  gMany1 isPySpace r6 fun _ r7 =>
  gMany1 isPyNonspace r7 fun ty r8 =>
  gMany isPySpace r8 fun _ r9 =>
  optDotPlus r9 fun cfg r10 =>
  gMany isPySpace r10 fun _ r11 =>
  litP ";".data r11 fun _ =>
  some ⟨ot.map String.mk, String.mk nm, String.mk ty, cfg.map String.mk⟩

/-- `re.search` for the attribute-definition grammar. -/
def searchAttrDef (cs : List Char) : Option BaCaps := searchIn matchAttrDefAt cs

/-- Matcher for `\s*(?P<min>\S+)\s*(?P<max>\S+)` (the FLOAT/INT bound clause)
at a fixed position. -/
def matchTwoTokensAt (cs : List Char) : Option (String × String) :=
  gMany isPySpace cs fun _ r1 =>
  gMany1 isPyNonspace r1 fun a r2 =>
  gMany isPySpace r2 fun _ r3 =>
  gMany1 isPyNonspace r3 fun b _ =>
  some (String.mk a, String.mk b)

/-- `re.search` for the FLOAT/INT bound clause. -/
def searchTwoTokens (cs : List Char) : Option (String × String) := searchIn matchTwoTokensAt cs

/-! ## Typed field conversion -/

/-- Value of a digit run as a rational. -/
def digitsValQ (cs : List Char) : ℚ :=
  ((cs.foldl (fun a c => 10 * a + (c.toNat - 48)) 0 : ℕ) : ℚ)

/-- Python `float()` on the decimal forms `[+-]?digits[.digits]` /
`[+-]?.digits` / `[+-]?digits.` occurring in DBC files (the exponent,
infinity and NaN spellings accepted by Python are not modelled; an
unconvertible token is `none`, matching the `ValueError` abort). -/
def pyFloatQ (s : String) : Option ℚ :=
  let cs := stripL s.data
  let sgn : ℚ := match cs with | '-' :: _ => -1 | _ => 1
  let cs1 : List Char := match cs with | '+' :: r => r | '-' :: r => r | r => r
  let ip := cs1.takeWhile Char.isDigit
  let r2 := cs1.drop ip.length
  match r2 with
  | [] => if ip.isEmpty then none else some (sgn * digitsValQ ip)
  | '.' :: r3 =>
    let fp := r3.takeWhile Char.isDigit
    let r4 := r3.drop fp.length
    if r4.isEmpty && !(ip.isEmpty && fp.isEmpty) then
      some (sgn * (digitsValQ ip + digitsValQ fp / ((10 : ℚ) ^ fp.length)))
    else none
  | _ => none

/-! ## Entity graph

Modelled from the spec: the `canpy.can_bus` module is not part of the
repository snapshot, so the passive data model (`CANBus`, `CANNode`,
`CANMessage`, `CANSignal`, attribute definitions) and its construction
contract (§4.1: `DuplicateEntity` on identifier collision, `UnknownNode` /
`NotFound` on missing references) are taken from the specification's §3 and
§4.1.  Python object references held by the dispatcher are modelled by keys
into the current graph (a message by its unique id, a description target by
its identifying key); a reference into a discarded graph is `detached` and
mutations through it are invisible, as in Python. -/

/-- Error taxonomy (spec §7); `malformedRecord` also covers the
`AttributeError` raised when `re.search` returns `None` and the `ValueError`
of a failed numeric conversion, `contextError` is the source's
`RuntimeError('Signal description not in message block')`. -/
inductive PErr where
| malformedRecord
| unknownNode
| notFound
| duplicateEntity
| contextError
deriving DecidableEq, Repr

/-- A signal (spec §3). -/
structure CANSignal where
  name : String
  start_bit : Nat
  length : Nat
  little_endian : Bool
  signed : Bool
  factor : ℚ
  offset : ℚ
  value_min : ℚ
  value_max : ℚ
  unit : String
  is_multiplexer : Bool
  multiplexer_id : Option Nat
  receivers : List String
  description : Option String
deriving DecidableEq, Repr

/-- A message (spec §3); its sender is the node owning it. -/
structure CANMessage where
  can_id : Nat
  name : String
  length : Nat
  signals : List CANSignal
  description : Option String
deriving DecidableEq, Repr

/-- A node (spec §3). -/
structure CANNode where
  name : String
  messages : List CANMessage
  description : Option String
deriving DecidableEq, Repr

/-- Which entity kind an attribute definition targets (the Python code
passes the class objects `CANBus`/`CANNode`/`CANMessage`/`CANSignal`). -/
inductive AttrObjType where
| bus
| node
| message
| signal
deriving DecidableEq, Repr

/-- The typed value domain: the four Python classes
`CANFloatAttributeDefinition`, `CANIntAttributeDefinition`,
`CANStringAttributeDefinition`, `CANEnumAttributeDefinition` (the INT class
also receives `float(...)` bounds in the source, hence rationals). -/
inductive AttrDomain where
| floatDom (value_min value_max : ℚ)
| intDom (value_min value_max : ℚ)
| stringDom
| enumDom (values : List String)
deriving DecidableEq, Repr

/-- An attribute definition (spec §3). -/
structure CANAttributeDefinition where
  name : String
  obj_type : AttrObjType
  domain : AttrDomain
deriving DecidableEq, Repr

/-- The root bus entity (spec §3). -/
structure CANBus where
  version : Option String
  speed : Option Nat
  description : Option String
  nodes : List CANNode
  attribute_definitions : List CANAttributeDefinition
deriving DecidableEq, Repr

/-- The freshly constructed `CANBus()`. -/
def CANBus.empty : CANBus :=
  { version := none, speed := none, description := none, nodes := [], attribute_definitions := [] }

/-- Lookup a node by name (`self._canbus.nodes[name]`; `none` is the
`KeyError`, reported as `UnknownNode`). -/
def CANBus.findNode (b : CANBus) (n : String) : Option CANNode :=
  b.nodes.find? (fun nd => nd.name == n)

/-- Modelled from the spec: `addNode` inserts a node, failing with
`DuplicateEntity` if the name already exists (§4.1). -/
def CANBus.add_node (b : CANBus) (nd : CANNode) : Except PErr CANBus :=
  if b.nodes.any (fun x => x.name == nd.name) then .error .duplicateEntity
  else .ok { b with nodes := b.nodes ++ [nd] }

/-- All messages of the bus (the bus-wide id index, reachable through the
nodes). -/
def CANBus.allMessages (b : CANBus) : List CANMessage :=
  (b.nodes.map CANNode.messages).flatten

/-- Modelled from the spec: `messageById` lookup (`get_message`). -/
def CANBus.get_message (b : CANBus) (cid : Nat) : Option CANMessage :=
  b.allMessages.find? (fun m => m.can_id == cid)

/-- Modelled from the spec: `signalByMessageIdAndName` lookup (`get_signal`). -/
def CANBus.get_signal (b : CANBus) (cid : Nat) (n : String) : Option CANSignal :=
  (b.get_message cid).bind (fun m => m.signals.find? (fun s => s.name == n))

/-- Modelled from the spec: `addMessage(node, message)` inserts into the
named node's message set (and thereby the bus-wide index), failing with
`DuplicateEntity` if the id collides bus-wide (§4.1).  The caller has
already resolved the node. -/
def CANBus.add_message (b : CANBus) (nodeName : String) (m : CANMessage) : Except PErr CANBus :=
  if b.allMessages.any (fun x => x.can_id == m.can_id) then .error .duplicateEntity
  else .ok { b with nodes := b.nodes.map (fun nd =>
    if nd.name == nodeName then { nd with messages := nd.messages ++ [m] } else nd) }

/-- Modelled from the spec: `addSignal(message, signal)` appends a signal to
the message with the given id, failing with `DuplicateEntity` on a name
collision within the message (§4.1).  If no message with the id is present
the graph is returned unchanged: in Python the dispatcher holds the message
object itself, so this branch corresponds to mutating an object that is not
part of the current graph. -/
def CANBus.add_signal (b : CANBus) (cid : Nat) (sig : CANSignal) : Except PErr CANBus :=
  match b.get_message cid with
  | none => .ok b
  | some m =>
    if m.signals.any (fun s => s.name == sig.name) then .error .duplicateEntity
    else .ok { b with nodes := b.nodes.map (fun nd =>
      { nd with messages := nd.messages.map (fun msg =>
        if msg.can_id == cid then { msg with signals := msg.signals ++ [sig] } else msg) }) }

/-- Modelled from the spec: `addAttributeDefinition` fails with
`DuplicateEntity` on a name collision (§4.1). -/
def CANBus.add_attribute_definition (b : CANBus) (ad : CANAttributeDefinition) :
    Except PErr CANBus :=
  if b.attribute_definitions.any (fun x => x.name == ad.name) then .error .duplicateEntity
  else .ok { b with attribute_definitions := b.attribute_definitions ++ [ad] }

/-! ## More Python string helpers used by attribute definitions -/

/-- Worker for `pySplitComma`. -/
def splitCommaGo : List Char → List Char → List (List Char)
| [], cur => [cur.reverse]
| ',' :: rest, cur => cur.reverse :: splitCommaGo rest []
| c :: rest, cur => splitCommaGo rest (c :: cur)

/-- Python `str.split(',')` (keeps empty pieces). -/
def pySplitComma (s : String) : List String := (splitCommaGo s.data []).map String.mk

/-- Python `str.replace('"', '')`: delete every double quote. -/
def removeDoubleQuotes (s : String) : String := String.mk (s.data.filter (fun c => c != '"'))

/-! ## Dispatcher state -/

/-- The dispatcher's reference to its current message: the id of a message
living in the current graph, or a reference into a discarded graph. -/
inductive MsgCtx where
| live (can_id : Nat)
| detached
deriving DecidableEq, Repr

/-- The continuation handler's reference to the entity whose description is
being accumulated (`desc_item`). -/
inductive DescTarget where
| bus
| node (name : String)
| message (can_id : Nat)
| signal (can_id : Nat) (name : String)
| detached
deriving DecidableEq, Repr

/-- The `self._mode` tuple: `('NORMAL', None)`, `('MESSAGE', message)` or
`('MULTILINE_DESCRIPTION', (desc_item, buffer))`. -/
inductive PMode where
| normal
| message (ctx : MsgCtx)
| multiline (target : DescTarget) (buffer : String)
deriving DecidableEq, Repr

/-- The mutable fields of a `DBCParser` object: `_canbus`, `_mode`, and the
truthiness of `_force_parser` (which only ever holds the multi-line
description handler, so a `Bool` suffices). -/
structure ParserState where
  canbus : CANBus
  mode : PMode
  force_multiline : Bool
deriving DecidableEq, Repr

/-- `DBCParser.__init__`. -/
def initState : ParserState :=
  { canbus := CANBus.empty, mode := .normal, force_multiline := false }

/-- Assign `desc_item.description = v`: mutate the referenced entity of the
current graph; a `detached` reference mutates an object outside the graph,
leaving the graph itself unchanged. -/
def CANBus.setDescription (b : CANBus) (t : DescTarget) (v : String) : CANBus :=
  match t with
  | .bus => { b with description := some v }
  | .node n =>
    { b with nodes := b.nodes.map (fun nd =>
        if nd.name == n then { nd with description := some v } else nd) }
  | .message cid =>
    { b with nodes := b.nodes.map (fun nd =>
        { nd with messages := nd.messages.map (fun m =>
            if m.can_id == cid then { m with description := some v } else m) }) }
  | .signal cid snm =>
    { b with nodes := b.nodes.map (fun nd =>
        { nd with messages := nd.messages.map (fun m =>
            if m.can_id == cid then
              { m with signals := m.signals.map (fun sg =>
                  if sg.name == snm then { sg with description := some v } else sg) }
            else m) }) }
  | .detached => b

/-! ## Record handlers (`_parse_*` methods) -/

/-- `_parse_version`: graph effect only. -/
def version_core (b : CANBus) (cs : List Char) : Except PErr CANBus :=
  match searchVersion cs with
  | none => .error .malformedRecord
  | some v => .ok { b with version := some v }

/-- The `for node_name in node_names_str.split(' ')` loop of `_parse_nodes`. -/
def addNodesList (b : CANBus) : List String → Except PErr CANBus
| [] => .ok b
| n :: rest =>
  match b.add_node { name := n, messages := [], description := none } with
  | .error e => .error e
  | .ok b2 => addNodesList b2 rest

/-- `_parse_nodes`: graph effect only. -/
def nodes_core (b : CANBus) (cs : List Char) : Except PErr CANBus :=
  match searchNodes cs with
  | none => .error .malformedRecord
  | some ns => addNodesList b (pySplitTokens ns)

/-- `_parse_bus_configuration`: graph effect only (a missing speed capture
leaves the bus untouched). -/
def bus_config_core (b : CANBus) (cs : List Char) : Except PErr CANBus :=
  match searchBusConfig cs with
  | none => .error .malformedRecord
  | some none => .ok b
  | some (some ds) => .ok { b with speed := some (digitsToNat ds) }

/-- The `if 'BU_' in reg.groups(): ... elif ...` chain of
`_parse_attribute_definition`: membership is tested over the tuple of ALL
four captured groups, not just the target marker. -/
def attrObjTypeOf (caps : BaCaps) : AttrObjType :=
  let groups : List (Option String) :=
    [caps.obj_type, some caps.attr_name, some caps.attr_type, caps.attr_config]
  if groups.contains (some "BU_") then .node
  else if groups.contains (some "BO_") then .message
  else if groups.contains (some "SG_") then .signal
  else .bus

/-- The typed construction step of `_parse_attribute_definition`; `none`
models every Python fault on this path (`TypeError` from `re.search(None)`,
`AttributeError` from a failed bound search or from adding `ad = None`,
`ValueError` from `float`). -/
def mkAttrDefinition (caps : BaCaps) : Option CANAttributeDefinition :=
  let ot := attrObjTypeOf caps
  if caps.attr_type == "FLOAT" then
    match caps.attr_config with
    | none => none
    | some cfg =>
      match searchTwoTokens cfg.data with
      | none => none
      | some (mn, mx) =>
        match pyFloatQ mn, pyFloatQ mx with
        | some a, some c => some { name := caps.attr_name, obj_type := ot, domain := .floatDom a c }
        | _, _ => none
  else if caps.attr_type == "INT" then
    match caps.attr_config with
    | none => none
    | some cfg =>
      match searchTwoTokens cfg.data with
      | none => none
      | some (mn, mx) =>
        match pyFloatQ mn, pyFloatQ mx with
        | some a, some c => some { name := caps.attr_name, obj_type := ot, domain := .intDom a c }
        | _, _ => none
  else if caps.attr_type == "STRING" then
    some { name := caps.attr_name, obj_type := ot, domain := .stringDom }
  else if caps.attr_type == "ENUM" then
    match caps.attr_config with
    | none => none
    | some cfg =>
      some { name := caps.attr_name, obj_type := ot,
             domain := .enumDom ((pySplitComma cfg).map (fun v => pyStrip (removeDoubleQuotes v))) }
  else none

/-- `_parse_attribute_definition`: graph effect only. -/
def attr_def_core (b : CANBus) (cs : List Char) : Except PErr CANBus :=
  match searchAttrDef cs with
  | none => .error .malformedRecord
  | some caps =>
    match mkAttrDefinition caps with
    | none => .error .malformedRecord
    | some ad => b.add_attribute_definition ad

/-- The pure field decodings of `_parse_signal` (source lines 108-112). -/
structure DecodedSignal where
  little_endian : Bool
  signed : Bool
  receivers : List String
  is_multiplexer : Bool
  multiplexer_id : Option Nat
deriving DecidableEq, Repr

/-- Lines 108-112 of the source: endianness/sign comparison, receiver
tokenisation, multiplexer flag truthiness, `int(group.strip()[1:])`. -/
def decode_signal_fields (caps : SgCaps) : DecodedSignal :=
  { little_endian := pyStrip caps.endianness == "1",
    signed := pyStrip caps.sign == "-",
    receivers := pySplitTokens caps.receivers,
    is_multiplexer := caps.is_multipexer,
    multiplexer_id := caps.multiplexer_id.map (fun m => digitsToNat (String.mk ((stripL m.data).drop 1))) }

/-- The `CANSignal(...)` construction (source lines 116-120), including the
four `float(...)` conversions that may raise `ValueError`. -/
def mkCANSignal (caps : SgCaps) : Option CANSignal :=
  let d := decode_signal_fields caps
  match pyFloatQ caps.factor, pyFloatQ caps.offset, pyFloatQ caps.min_value,
        pyFloatQ caps.max_value with
  | some f, some o, some mn, some mx =>
    some { name := pyStrip caps.name, start_bit := digitsToNat caps.start_bit,
           length := digitsToNat caps.length, little_endian := d.little_endian,
           signed := d.signed, factor := f, offset := o, value_min := mn, value_max := mx,
           unit := pyStrip caps.unit, is_multiplexer := d.is_multiplexer,
           multiplexer_id := d.multiplexer_id, receivers := [], description := none }
  | _, _, _, _ => none

/-- The receiver loop of `_parse_signal` (source lines 121-123): each
receiver name is resolved against the node set (`KeyError` = UnknownNode)
and attached to the signal. -/
def resolveReceivers (b : CANBus) (sig : CANSignal) : List String → Except PErr CANSignal
| [] => .ok sig
| n :: rest =>
  match b.findNode n with
  | none => .error .unknownNode
  | some nd => resolveReceivers b { sig with receivers := sig.receivers ++ [nd.name] } rest

/-- The graph effect of `_parse_signal` once the message context is known. -/
def signal_core (b : CANBus) (ctx : MsgCtx) (caps : SgCaps) : Except PErr CANBus :=
  match mkCANSignal caps with
  | none => .error .malformedRecord
  | some sig0 =>
    match resolveReceivers b sig0 (decode_signal_fields caps).receivers with
    | .error e => .error e
    | .ok sig =>
      match ctx with
      | .detached => .ok b
      | .live cid => b.add_signal cid sig

/-- `_parse_signal`: decode, then `if self._mode[0] != 'MESSAGE': raise
RuntimeError(...)` (the ContextError), then construct and attach. -/
def parse_signal (s : ParserState) (cs : List Char) : Except PErr ParserState :=
  match searchSignal cs with
  | none => .error .malformedRecord
  | some caps =>
    match s.mode with
    | .message ctx => (signal_core s.canbus ctx caps).map (fun cb => { s with canbus := cb })
    | _ => .error .contextError

/-- `_parse_message`: build the message, resolve the sender
(`KeyError` = UnknownNode), insert, then open the message context. -/
def parse_message (s : ParserState) (cs : List Char) : Except PErr ParserState :=
  match searchMessage cs with
  | none => .error .malformedRecord
  | some caps =>
    let m : CANMessage :=
      { can_id := digitsToNat caps.can_id, name := pyStrip caps.name,
        length := digitsToNat caps.length, signals := [], description := none }
    match s.canbus.findNode (pyStrip caps.sender) with
    | none => .error .unknownNode
    | some nd =>
      match s.canbus.add_message nd.name m with
      | .error e => .error e
      | .ok cb => .ok { s with canbus := cb, mode := .message (.live m.can_id) }

/-- Resolution of `desc_item` in `_parse_description` (source lines
138-146); an empty `can_id` capture models the `ValueError` of `int('')`. -/
def resolveDescTarget (b : CANBus) (caps : CmCaps) : Except PErr DescTarget :=
  if caps.node then
    match b.findNode (pyStrip caps.name) with
    | none => .error .unknownNode
    | some nd => .ok (.node nd.name)
  else if caps.msg then
    if caps.can_id.isEmpty then .error .malformedRecord
    else
      match b.get_message (digitsToNat caps.can_id) with
      | none => .error .notFound
      | some m => .ok (.message m.can_id)
  else if caps.sig then
    if caps.can_id.isEmpty then .error .malformedRecord
    else
      match b.get_signal (digitsToNat caps.can_id) (pyStrip caps.name) with
      | none => .error .notFound
      | some sg => .ok (.signal (digitsToNat caps.can_id) sg.name)
  else .ok .bus

/-- `_parse_description` (source lines 126-155): a value whose stripped form
ends in `";` is assigned at once (mode reset to NORMAL, source line 152);
otherwise the continuation handler is armed with the partial value plus a
newline. -/
def parse_description (s : ParserState) (cs : List Char) : Except PErr ParserState :=
  match searchDescription cs with
  | none => .error .malformedRecord
  | some caps =>
    match resolveDescTarget s.canbus caps with
    | .error e => .error e
    | .ok t =>
      if endsWithQuoteSemi caps.value then
        .ok { s with canbus := s.canbus.setDescription t (removeQuoteSemi caps.value),
                     mode := .normal }
      else
        .ok { s with mode := .multiline t (caps.value ++ "\n"), force_multiline := true }

/-- `_parse_multiline_description` (source lines 157-163).  The fallback arm
models the `TypeError` Python would raise if `_mode` did not hold the
continuation payload; it is unreachable because `_force_parser` and the
`MULTILINE_DESCRIPTION` mode are always set and cleared together. -/
def parse_multiline_description (s : ParserState) (cs : List Char) : Except PErr ParserState :=
  match s.mode with
  | .multiline t buf =>
    if endsWithQuoteSemi (String.mk cs) then
      .ok { s with canbus := s.canbus.setDescription t (buf ++ removeQuoteSemi (String.mk cs)),
                   mode := .normal, force_multiline := false }
    else
      .ok { s with mode := .multiline t (buf ++ String.mk cs) }
  | _ => .error .malformedRecord

/-- `_parse_line`: the continuation handler intercepts everything while
armed; otherwise the keyword table dispatches on the line's prefix.  The
seven keywords are pairwise prefix-incompatible, so at most one of Python's
`line.startswith(key)` tests can succeed and the dictionary's iteration
order is immaterial; the chain below checks them in the dictionary's
insertion order. -/
def parse_lineL (s : ParserState) (cs : List Char) : Except PErr ParserState :=
  if s.force_multiline then parse_multiline_description s cs
  else if startsWithL "VERSION".data cs then
    (version_core s.canbus cs).map (fun cb => { s with canbus := cb })
  else if startsWithL "BU_".data cs then
    (nodes_core s.canbus cs).map (fun cb => { s with canbus := cb })
  else if startsWithL "BO_".data cs then parse_message s cs
  else if startsWithL "SG_".data cs then parse_signal s cs
  else if startsWithL "CM_".data cs then parse_description s cs
  else if startsWithL "BS_".data cs then
    (bus_config_core s.canbus cs).map (fun cb => { s with canbus := cb })
  else if startsWithL "BA_DEF_".data cs then
    (attr_def_core s.canbus cs).map (fun cb => { s with canbus := cb })
  else .ok s

/-- `_parse_line` on a `String`. -/
def parse_line (s : ParserState) (line : String) : Except PErr ParserState :=
  parse_lineL s line.data

/-- The per-line loop of `parse_file`. -/
def runLines (s : ParserState) : List String → Except PErr ParserState
| [] => .ok s
| l :: rest =>
  match parse_line s l with
  | .error e => .error e
  | .ok s2 => runLines s2 rest

/-- Discarding `self._canbus` turns every object reference the dispatcher
still holds into a reference outside the new graph. -/
def detachMode : PMode → PMode
| .normal => .normal
| .message _ => .message .detached
| .multiline _ buf => .multiline .detached buf

/-- `parse_file`: reassign `self._canbus = CANBus()` (which detaches any
mode payload carried over from an earlier invocation — `_mode` and
`_force_parser` themselves are NOT reset), feed every stripped line to
`_parse_line`, and return the bus together with the object's final state. -/
def parse_file (s : ParserState) (ls : List String) : Except PErr (CANBus × ParserState) :=
  let s0 : ParserState :=
    { canbus := CANBus.empty, mode := detachMode s.mode, force_multiline := s.force_multiline }
  match runLines s0 (ls.map pyStrip) with
  | .error e => .error e
  | .ok s1 => .ok (s1.canbus, s1)

/-- The graph returned by `parse_file`. -/
def parse_file_bus (s : ParserState) (ls : List String) : Except PErr CANBus :=
  (parse_file s ls).map Prod.fst

/-! ## Helper lemmas -/

/-- The character lists behind the keyword string literals. -/
theorem data_VERSION : "VERSION".data = ['V', 'E', 'R', 'S', 'I', 'O', 'N'] := rfl

theorem data_BU : "BU_".data = ['B', 'U', '_'] := rfl

theorem data_BO : "BO_".data = ['B', 'O', '_'] := rfl

theorem data_SG : "SG_".data = ['S', 'G', '_'] := rfl

theorem data_CM : "CM_".data = ['C', 'M', '_'] := rfl

theorem data_BS : "BS_".data = ['B', 'S', '_'] := rfl

theorem data_BA_DEF : "BA_DEF_".data = ['B', 'A', '_', 'D', 'E', 'F', '_'] := rfl

/-- Unfold one matched character of a `startsWithL` hypothesis. -/
theorem startsWithL_cons {a : Char} {p cs : List Char} (h : startsWithL (a :: p) cs = true) :
    ∃ t, cs = a :: t ∧ startsWithL p t = true := by
  cases cs with
  | nil => simp [startsWithL, List.isPrefixOf] at h
  | cons c t =>
    have h' : (a == c && List.isPrefixOf p t) = true := h
    rw [Bool.and_eq_true] at h'
    exact ⟨t, by rw [eq_of_beq h'.1], h'.2⟩

/-- `dropWhile` keeps a list whose members all fail the whitespace test. -/
theorem dropWhile_space_eq_self {l : List Char} (h : ∀ c ∈ l, isPySpace c = false) :
    l.dropWhile isPySpace = l := by
  cases l with
  | nil => rfl
  | cons c t => simp [List.dropWhile, h c (by simp)]

/-- `strip` is the identity on whitespace-free text. -/
theorem stripL_eq_self {l : List Char} (h : ∀ c ∈ l, isPySpace c = false) :
    stripL l = l := by
  unfold stripL
  rw [dropWhile_space_eq_self h,
      dropWhile_space_eq_self (fun c hc => h c (List.mem_reverse.mp hc)),
      List.reverse_reverse]

/-- String append is associative. -/
theorem strAppend_assoc (a b c : String) : a ++ b ++ c = a ++ (b ++ c) :=
  String.append_assoc a b c

/-- The empty string is right neutral. -/
theorem strAppend_empty (a : String) : a ++ "" = a := String.append_empty a

/-- Structure eta for strings. -/
theorem strMkData (s : String) : String.mk s.data = s := rfl

/-- A handler that only swaps in a new graph preserves mode and
continuation flag. -/
theorem mk_canbus_ok {e : Except PErr CANBus} {m : PMode} {fb : Bool} {s2 : ParserState}
    (h : e.map (fun cb => ⟨cb, m, fb⟩) = .ok s2) :
    s2.mode = m ∧ s2.force_multiline = fb := by
  cases e with
  | error err => simp [Except.map] at h
  | ok cb =>
    simp [Except.map] at h
    rw [← h]
    exact ⟨rfl, rfl⟩

/-- A successful `_parse_signal` never changes the dispatcher state. -/
theorem parse_signal_preserves {s s2 : ParserState} {cs : List Char}
    (h : parse_signal s cs = .ok s2) :
    s2.mode = s.mode ∧ s2.force_multiline = s.force_multiline := by
  unfold parse_signal at h
  split at h
  · exact Except.noConfusion h
  · split at h
    · exact mk_canbus_ok h
    · exact Except.noConfusion h

/-- `runLines` on the empty tail. -/
theorem runLines_nil (s : ParserState) : runLines s [] = .ok s := rfl

/-- `runLines` steps through a successfully parsed line. -/
theorem runLines_cons_ok {s s2 : ParserState} {l : String} {rest : List String}
    (h : parse_line s l = .ok s2) : runLines s (l :: rest) = runLines s2 rest := by
  show (match parse_line s l with
        | .error e => .error e
        | .ok s3 => runLines s3 rest) = runLines s2 rest
  rw [h]

/-- Concatenation of a list of lines with no separator. -/
def concatAll : List String → String
| [] => ""
| l :: rest => l ++ concatAll rest

/-- A continuation line whose stripped form ends in `";` finishes the
description: the buffer (with all `";` occurrences of the final line
removed) is assigned and the dispatcher returns to normal mode. -/
theorem parse_multiline_step_end {s : ParserState} {t : DescTarget} {buf : String} (line : String)
    (hf : s.force_multiline = true) (hm : s.mode = .multiline t buf)
    (hend : endsWithQuoteSemi line = true) :
    parse_line s line =
      .ok { canbus := s.canbus.setDescription t (buf ++ removeQuoteSemi line),
            mode := .normal, force_multiline := false } := by
  unfold parse_line parse_lineL
  rw [hf]
  simp only [if_true]
  unfold parse_multiline_description
  rw [hm, strMkData, hend]
  simp

/-- A continuation line whose stripped form does not end in `";` is appended
to the buffer verbatim — with NO separating newline — and the continuation
stays active. -/
theorem parse_multiline_step_cont {s : ParserState} {t : DescTarget} {buf : String} (line : String)
    (hf : s.force_multiline = true) (hm : s.mode = .multiline t buf)
    (hnend : endsWithQuoteSemi line = false) :
    parse_line s line = .ok { s with mode := .multiline t (buf ++ line) } := by
  unfold parse_line parse_lineL
  rw [hf]
  simp only [if_true]
  unfold parse_multiline_description
  rw [hm, strMkData, hnend]
  simp [hf]

/-- Feeding an active continuation any number of non-terminating lines and
then a terminating one assigns `buffer ++ (lines joined with no separator)
++ (final line with its `";` occurrences removed)`. -/
theorem runLines_multiline_accumulate (t : DescTarget) (last : String)
    (mid : List String) (s : ParserState) (buf : String)
    (hf : s.force_multiline = true) (hm : s.mode = .multiline t buf)
    (hmid : ∀ l ∈ mid, endsWithQuoteSemi l = false)
    (hend : endsWithQuoteSemi last = true) :
    runLines s (mid ++ [last]) =
      .ok { canbus := s.canbus.setDescription t (buf ++ concatAll mid ++ removeQuoteSemi last),
            mode := .normal, force_multiline := false } := by
  induction mid generalizing s buf with
  | nil =>
    show runLines s [last] = _
    rw [runLines_cons_ok (parse_multiline_step_end last hf hm hend), runLines_nil]
    rw [concatAll, strAppend_empty]
  | cons l rest ih =>
    show runLines s (l :: (rest ++ [last])) = _
    rw [runLines_cons_ok (parse_multiline_step_cont l hf hm (hmid l (by simp)))]
    rw [ih { s with mode := .multiline t (buf ++ l) } (buf ++ l) hf rfl
          (fun x hx => hmid x (by simp [hx]))]
    rw [concatAll, ← strAppend_assoc buf l (concatAll rest)]

/-- An unterminated description record arms the continuation with the
partial value plus one newline. -/
theorem parse_description_opens (s : ParserState) (cs : List Char) (caps : CmCaps)
    (t : DescTarget)
    (hf : s.force_multiline = false)
    (hsw : startsWithL "CM_".data cs = true)
    (hcap : searchDescription cs = some caps)
    (ht : resolveDescTarget s.canbus caps = .ok t)
    (hnend : endsWithQuoteSemi caps.value = false) :
    parse_lineL s cs =
      .ok { s with mode := .multiline t (caps.value ++ "\n"), force_multiline := true } := by
  rw [data_CM] at hsw
  obtain ⟨t1, e1, hsw1⟩ := startsWithL_cons hsw
  subst e1
  obtain ⟨t2, e2, hsw2⟩ := startsWithL_cons hsw1
  subst e2
  obtain ⟨t3, e3, _⟩ := startsWithL_cons hsw2
  subst e3
  simp [parse_lineL, hf, data_VERSION, data_BU, data_BO, data_SG, data_CM, startsWithL,
        List.isPrefixOf, parse_description, hcap, ht, hnend]

/-- When none of the other captured groups happens to equal a marker
string, the `'BU_' in reg.groups()` chain reduces to a lookup of the
`obj_type` marker itself. -/
theorem attrObjTypeOf_marker (caps : BaCaps)
    (hobj : caps.obj_type = none ∨ caps.obj_type = some "BU_" ∨ caps.obj_type = some "BO_"
      ∨ caps.obj_type = some "SG_")
    (hn1 : caps.attr_name ≠ "BU_") (hn2 : caps.attr_name ≠ "BO_") (hn3 : caps.attr_name ≠ "SG_")
    (ht1 : caps.attr_type ≠ "BU_") (ht2 : caps.attr_type ≠ "BO_") (ht3 : caps.attr_type ≠ "SG_")
    (hc1 : caps.attr_config ≠ some "BU_") (hc2 : caps.attr_config ≠ some "BO_")
    (hc3 : caps.attr_config ≠ some "SG_") :
    attrObjTypeOf caps =
      (match caps.obj_type with
       | some "BU_" => AttrObjType.node
       | some "BO_" => AttrObjType.message
       | some "SG_" => AttrObjType.signal
       | _ => AttrObjType.bus) := by
  have bn1 : ("BU_" == caps.attr_name) = false := beq_eq_false_iff_ne.mpr (Ne.symm hn1)
  have bn2 : ("BO_" == caps.attr_name) = false := beq_eq_false_iff_ne.mpr (Ne.symm hn2)
  have bn3 : ("SG_" == caps.attr_name) = false := beq_eq_false_iff_ne.mpr (Ne.symm hn3)
  have bt1 : ("BU_" == caps.attr_type) = false := beq_eq_false_iff_ne.mpr (Ne.symm ht1)
  have bt2 : ("BO_" == caps.attr_type) = false := beq_eq_false_iff_ne.mpr (Ne.symm ht2)
  have bt3 : ("SG_" == caps.attr_type) = false := beq_eq_false_iff_ne.mpr (Ne.symm ht3)
  have bc1 : (some "BU_" == caps.attr_config) = false := beq_eq_false_iff_ne.mpr (Ne.symm hc1)
  have bc2 : (some "BO_" == caps.attr_config) = false := beq_eq_false_iff_ne.mpr (Ne.symm hc2)
  have bc3 : (some "SG_" == caps.attr_config) = false := beq_eq_false_iff_ne.mpr (Ne.symm hc3)
  unfold attrObjTypeOf
  rcases hobj with h | h | h | h <;>
    rw [h] <;>
    simp [List.contains, List.elem, bn1, bn2, bn3, bt1, bt2, bt3, bc1, bc2, bc3]



/-! ## Claims

One theorem per claim of the specification review, with concrete witness
or counterexample theorems as needed.  The rational operations are made
locally semireducible so the closed computations evaluate by `decide`. -/

section

attribute [local semireducible] Rat.mul Rat.add Rat.sub Rat.inv Rat.ofScientific

/-- Concrete capture records used by witnesses. -/
def sigCapsRPM : SgCaps :=
  ⟨"RPM", false, none, "0", "16", "1", "+", "0.25", "0", "0", "16000", "rpm", "ECU2"⟩

def sigCapsMOnly : SgCaps :=
  ⟨"s", true, none, "0", "8", "1", "-", "1", "0", "0", "5", "u", "N2"⟩

def sigCapsGroupOnly : SgCaps :=
  ⟨"s", false, some "m3", "0", "8", "0", "+", "1", "0", "0", "5", "u", "N2"⟩

def sigCapsBoth : SgCaps :=
  ⟨"s", true, some "m2", "0", "8", "1", "+", "1", "0", "0", "5", "u", "N2"⟩

def sigBoth : CANSignal :=
  ⟨"s", 0, 8, true, false, 1, 0, 0, 5, "u", true, some 2, [], none⟩

def boCapsGhost : BoCaps := ⟨"100", "EngineData", "8", "GHOST"⟩

def cmCapsStart : CmCaps := ⟨false, false, false, "", "", "start"⟩

def baCapsCycle : BaCaps := ⟨some "BO_", "GenMsgCycleTime", "INT", some "0 65535"⟩

/-- An armed continuation state over an empty graph (as left by the line
`CM_ "x`). -/
def contState : ParserState :=
  { canbus := CANBus.empty, mode := .multiline .bus "x\n", force_multiline := true }

/-- C1: a Signal record that matches the SG_ grammar, processed while the
dispatcher is in NORMAL mode (no open message context) and no continuation
is active, makes the parse fail with ContextError (the source's
`RuntimeError('Signal description not in message block')`); the line
produces an error, not an updated state, so the Entity Graph receives no
new signal from it. -/
theorem c1_signal_in_normal_mode_context_error (s : ParserState) (cs : List Char)
    (caps : SgCaps)
    (hf : s.force_multiline = false) (hm : s.mode = PMode.normal)
    (hsw : startsWithL "SG_".data cs = true)
    (hcap : searchSignal cs = some caps) :
    parse_lineL s cs = .error .contextError := by
  rw [data_SG] at hsw
  obtain ⟨t1, e1, hsw1⟩ := startsWithL_cons hsw
  subst e1
  obtain ⟨t2, e2, hsw2⟩ := startsWithL_cons hsw1
  subst e2
  obtain ⟨t3, e3, _⟩ := startsWithL_cons hsw2
  subst e3
  simp [parse_lineL, hf, data_VERSION, data_BU, data_BO, data_SG, startsWithL,
        List.isPrefixOf, parse_signal, hcap, hm]

/-- C1 witness: a fully concrete signal record in the initial state. -/
theorem c1_signal_in_normal_mode_context_error_witness :
    parse_lineL initState "SG_ RPM : 0|16@1+ (0.25,0) [0|16000] \"rpm\" ECU2".data =
      .error .contextError :=
  c1_signal_in_normal_mode_context_error initState _ sigCapsRPM rfl rfl rfl rfl

/-- C2 counterexample: for the record opened by `CM_ "start` followed by the
intermediate line `a` and the terminating line `b";`, the code assigns the
description `"start\nab"` — the intermediate line is appended WITHOUT a
trailing newline — whereas the claim predicts `"start\na\nb"`. -/
theorem c2_description_newlines_counterexample :
    (parse_file_bus initState ["CM_ \"start", "a", "b\";"]).map CANBus.description =
      .ok (some "start\nab") ∧ "start\nab" ≠ "start\na\nb" :=
  ⟨rfl, by decide⟩

/-- C2 amended: an unterminated Description record arms the continuation
with the partial value plus one newline; feeding N further non-terminating
lines and then a terminating line assigns the initial partial content plus
a newline, then the N intermediate lines concatenated with NO added
separator, then the terminating line with every `";` occurrence removed. -/
theorem c2_description_accumulation_amended :
    (∀ (s : ParserState) (cs : List Char) (caps : CmCaps) (t : DescTarget),
      s.force_multiline = false → startsWithL "CM_".data cs = true →
      searchDescription cs = some caps → resolveDescTarget s.canbus caps = .ok t →
      endsWithQuoteSemi caps.value = false →
      parse_lineL s cs =
        .ok { s with mode := .multiline t (caps.value ++ "\n"), force_multiline := true })
  ∧ (∀ (t : DescTarget) (last : String) (mid : List String) (s : ParserState) (v : String),
      s.force_multiline = true → s.mode = .multiline t (v ++ "\n") →
      (∀ l ∈ mid, endsWithQuoteSemi l = false) → endsWithQuoteSemi last = true →
      runLines s (mid ++ [last]) =
        .ok { canbus := s.canbus.setDescription t
                ((v ++ "\n") ++ concatAll mid ++ removeQuoteSemi last),
              mode := .normal, force_multiline := false }) :=
  ⟨fun s cs caps t hf hsw hcap ht hnend =>
     parse_description_opens s cs caps t hf hsw hcap ht hnend,
   fun t last mid s v hf hm hmid hend =>
     runLines_multiline_accumulate t last mid s (v ++ "\n") hf hm hmid hend⟩

/-- C2 witness: the concrete record of the counterexample, replayed through
the amended statement. -/
theorem c2_description_accumulation_amended_witness :
    parse_lineL initState "CM_ \"start".data =
      .ok { initState with mode := .multiline .bus ("start" ++ "\n"), force_multiline := true }
    ∧ runLines { canbus := CANBus.empty, mode := .multiline .bus ("start" ++ "\n"),
                 force_multiline := true } (["a"] ++ ["b\";"]) =
      .ok { canbus := CANBus.empty.setDescription .bus
              (("start" ++ "\n") ++ concatAll ["a"] ++ removeQuoteSemi "b\";"),
            mode := .normal, force_multiline := false } :=
  ⟨c2_description_accumulation_amended.1 initState _ cmCapsStart .bus rfl rfl rfl rfl rfl,
   c2_description_accumulation_amended.2 .bus "b\";" ["a"] _ "start" rfl rfl (by decide) rfl⟩

/-- C3 counterexample: with an open message context, the single-line
description `CM_ "hi there";` (quoted text closed on its opening line)
resets the dispatcher to NORMAL (source line 152), destroying the
open-message context; consequently a following signal record aborts the
whole parse with ContextError. -/
theorem c3_single_line_description_counterexample :
    parse_file_bus initState
        ["BU_: E1", "BO_ 100 M1: 8 E1", "CM_ \"hi there\";",
         "SG_ RPM : 0|16@1+ (0.25,0) [0|16000] \"rpm\" E1"] = .error .contextError
    ∧ (parse_line
        { canbus := { version := none, speed := none, description := none,
                      nodes := [{ name := "E1",
                                  messages := [{ can_id := 100, name := "M1", length := 8,
                                                 signals := [], description := none }],
                                  description := none }],
                      attribute_definitions := [] },
          mode := .message (.live 100), force_multiline := false }
        "CM_ \"hi there\";").map ParserState.mode = .ok PMode.normal
    ∧ PMode.normal ≠ PMode.message (.live 100) :=
  ⟨rfl, rfl, by decide⟩

/-- C3 amended: with an open message context and no active continuation, a
line matching a keyword other than `BO_` AND other than `CM_` leaves the
message context unchanged on success (a `CM_` record — even one whose
quoted text closes on its opening line — resets the mode to NORMAL). -/
theorem c3_open_message_frame_amended (s s2 : ParserState) (cs : List Char) (ctx : MsgCtx)
    (hf : s.force_multiline = false) (hm : s.mode = .message ctx)
    (hBO : startsWithL "BO_".data cs = false)
    (hCM : startsWithL "CM_".data cs = false)
    (h : parse_lineL s cs = .ok s2) :
    s2.mode = .message ctx := by
  unfold parse_lineL at h
  simp only [hf, Bool.false_eq_true, if_false, hBO, hCM] at h
  split at h
  · exact (mk_canbus_ok h).1.trans hm
  · split at h
    · exact (mk_canbus_ok h).1.trans hm
    · split at h
      · exact (parse_signal_preserves h).1.trans hm
      · split at h
        · exact (mk_canbus_ok h).1.trans hm
        · split at h
          · exact (mk_canbus_ok h).1.trans hm
          · injection h with h2
            rw [← h2]
            exact hm

/-- C3 witness: a VERSION record inside an open message block. -/
theorem c3_open_message_frame_amended_witness :
    (⟨⟨some "x", none, none, [], []⟩, PMode.message (.live 1), false⟩ : ParserState).mode =
      PMode.message (.live 1) :=
  c3_open_message_frame_amended
    ⟨CANBus.empty, PMode.message (.live 1), false⟩
    ⟨⟨some "x", none, none, [], []⟩, PMode.message (.live 1), false⟩
    "VERSION \"x\"".data (.live 1) rfl rfl rfl rfl rfl

/-- C4 counterexample: the record `SG_ s Mm2 : ...` carrying BOTH the `M`
marker and the `m2` group id parses successfully inside a message block and
yields a signal with the is-multiplexer flag AND the group id set — the
grammar does not reject it and the two fields are not mutually exclusive. -/
theorem c4_multiplexer_exclusivity_counterexample :
    (parse_file_bus initState
        ["BU_: N1 N2", "BO_ 5 Msg: 8 N1", "SG_ s Mm2 : 0|8@1+ (1,0) [0|5] \"u\" N2"]).map
        (fun b => (b.get_signal 5 "s").map (fun sg => (sg.is_multiplexer, sg.multiplexer_id))) =
      .ok (some (true, some 2)) := rfl

/-- C4 amended: a Signal record carrying both the `M` marker and an
`m<digits>` group id is accepted; the constructed signal has the
is-multiplexer flag set AND a group id present (no rejection, no
exclusivity). -/
theorem c4_multiplexer_both_fields_amended (cs : List Char) (caps : SgCaps) (ds : String)
    (sig : CANSignal)
    (_hcap : searchSignal cs = some caps)
    (hM : caps.is_multipexer = true) (hm : caps.multiplexer_id = some ds)
    (hmk : mkCANSignal caps = some sig) :
    sig.is_multiplexer = true ∧ sig.multiplexer_id.isSome = true := by
  unfold mkCANSignal at hmk
  split at hmk
  · injection hmk with h
    rw [← h]
    constructor
    · simp [decode_signal_fields, hM]
    · simp [decode_signal_fields, hm]
  · exact Option.noConfusion hmk

/-- C4 witness: the concrete double-marker record. -/
theorem c4_multiplexer_both_fields_amended_witness :
    sigBoth.is_multiplexer = true ∧ sigBoth.multiplexer_id.isSome = true :=
  c4_multiplexer_both_fields_amended "SG_ s Mm2 : 0|8@1+ (1,0) [0|5] \"u\" N2".data
    sigCapsBoth "m2" sigBoth rfl rfl rfl (by decide)

/-- C5: for a line matching the signal grammar, the field decodings of
source lines 108-112 satisfy: endianness `1` gives little-endian true and
`0` gives false; sign `-` gives signed true and `+` gives false; the `M`
marker alone gives the is-multiplexer flag with no group id; `m<digits>`
alone gives the numeric group id with the flag unset. -/
theorem c5_signal_field_decoding (cs : List Char) (caps : SgCaps)
    (_hcap : searchSignal cs = some caps) :
    (caps.endianness = "1" → (decode_signal_fields caps).little_endian = true)
  ∧ (caps.endianness = "0" → (decode_signal_fields caps).little_endian = false)
  ∧ (caps.sign = "-" → (decode_signal_fields caps).signed = true)
  ∧ (caps.sign = "+" → (decode_signal_fields caps).signed = false)
  ∧ (caps.is_multipexer = true → caps.multiplexer_id = none →
      (decode_signal_fields caps).is_multiplexer = true
        ∧ (decode_signal_fields caps).multiplexer_id = none)
  ∧ (∀ dgs : List Char, caps.is_multipexer = false →
      caps.multiplexer_id = some (String.mk ('m' :: dgs)) →
      (∀ c ∈ dgs, isPySpace c = false) →
      (decode_signal_fields caps).is_multiplexer = false
        ∧ (decode_signal_fields caps).multiplexer_id = some (digitsToNat (String.mk dgs))) := by
  refine ⟨?_, ?_, ?_, ?_, ?_, ?_⟩
  · intro h; simp [decode_signal_fields, h]; decide
  · intro h; simp [decode_signal_fields, h]; decide
  · intro h; simp [decode_signal_fields, h]; decide
  · intro h; simp [decode_signal_fields, h]; decide
  · intro hM hm
    exact ⟨by simp [decode_signal_fields, hM], by simp [decode_signal_fields, hm]⟩
  · intro dgs hM hm hns
    have hstrip : stripL ('m' :: dgs) = 'm' :: dgs := by
      apply stripL_eq_self
      intro c hc
      rcases List.mem_cons.mp hc with h | h
      · rw [h]; decide
      · exact hns c h
    refine ⟨by simp [decode_signal_fields, hM], ?_⟩
    simp [decode_signal_fields, hm, Option.map, hstrip]

/-- C5 witness: the decodings at two concrete signal records, one with the
`M` marker, endianness 1 and sign `-`, one with the `m3` group, endianness 0
and sign `+`. -/
theorem c5_signal_field_decoding_witness :
    (decode_signal_fields sigCapsMOnly).little_endian = true
  ∧ (decode_signal_fields sigCapsMOnly).signed = true
  ∧ (decode_signal_fields sigCapsMOnly).is_multiplexer = true
  ∧ (decode_signal_fields sigCapsMOnly).multiplexer_id = none
  ∧ (decode_signal_fields sigCapsGroupOnly).little_endian = false
  ∧ (decode_signal_fields sigCapsGroupOnly).signed = false
  ∧ (decode_signal_fields sigCapsGroupOnly).is_multiplexer = false
  ∧ (decode_signal_fields sigCapsGroupOnly).multiplexer_id =
      some (digitsToNat (String.mk ['3'])) :=
  have h1 := c5_signal_field_decoding "SG_ s M : 0|8@1- (1,0) [0|5] \"u\" N2".data
    sigCapsMOnly rfl
  have h2 := c5_signal_field_decoding "SG_ s m3 : 0|8@0+ (1,0) [0|5] \"u\" N2".data
    sigCapsGroupOnly rfl
  ⟨h1.1 rfl, h1.2.2.1 rfl, (h1.2.2.2.2.1 rfl rfl).1, (h1.2.2.2.2.1 rfl rfl).2,
   h2.2.1 rfl, h2.2.2.2.1 rfl, (h2.2.2.2.2.2 ['3'] rfl rfl (by decide)).1,
   (h2.2.2.2.2.2 ['3'] rfl rfl (by decide)).2⟩

/-- C6: a Message record whose sender name is not in the node set fails with
UnknownNode (the `KeyError` of `self._canbus.nodes[sender]`); the error is
raised before any insertion, so the parse aborts and the Entity Graph gains
no message with that record's id. -/
theorem c6_unknown_sender_rejected (s : ParserState) (cs : List Char) (caps : BoCaps)
    (hf : s.force_multiline = false)
    (hsw : startsWithL "BO_".data cs = true)
    (hcap : searchMessage cs = some caps)
    (hnode : s.canbus.findNode (pyStrip caps.sender) = none) :
    parse_lineL s cs = .error .unknownNode := by
  rw [data_BO] at hsw
  obtain ⟨t1, e1, hsw1⟩ := startsWithL_cons hsw
  subst e1
  obtain ⟨t2, e2, hsw2⟩ := startsWithL_cons hsw1
  subst e2
  obtain ⟨t3, e3, _⟩ := startsWithL_cons hsw2
  subst e3
  simp [parse_lineL, hf, data_VERSION, data_BU, data_BO, startsWithL,
        List.isPrefixOf, parse_message, hcap, hnode]

/-- C6 witness: a message whose sender `GHOST` is not a node of the empty
graph. -/
theorem c6_unknown_sender_rejected_witness :
    parse_lineL initState "BO_ 100 EngineData: 8 GHOST".data = .error .unknownNode :=
  c6_unknown_sender_rejected initState _ boCapsGhost rfl rfl rfl rfl

/-- C7 counterexample: the record quoted by the claim,
`BA_DEF_ BO_ "GenMsgCycleTime" INT 0 65535` WITHOUT a terminating `;`, does
not match the attribute-definition pattern (which requires a literal `;`),
so `re.search` returns `None`, `reg.group` raises, and the parse fails
instead of producing a definition. -/
theorem c7_attribute_definition_counterexample :
    parse_file_bus initState ["BA_DEF_ BO_ \"GenMsgCycleTime\" INT 0 65535"] =
      .error .malformedRecord := rfl

/-- C7 amended: with the required `;` terminator the record produces exactly
one Int-typed attribute definition targeting Message with bounds
(0, 65535); and the target kind is determined by the marker as the claim
states PROVIDED none of the other captured groups (name, type, config)
happens to equal one of the marker strings, because the source tests
membership over `reg.groups()` as a whole. -/
theorem c7_attribute_definition_amended :
    (parse_file_bus initState ["BA_DEF_ BO_ \"GenMsgCycleTime\" INT 0 65535;"] =
      .ok { version := none, speed := none, description := none, nodes := [],
            attribute_definitions :=
              [{ name := "GenMsgCycleTime", obj_type := .message,
                 domain := .intDom 0 65535 }] })
  ∧ (∀ caps : BaCaps,
      (caps.obj_type = none ∨ caps.obj_type = some "BU_" ∨ caps.obj_type = some "BO_"
        ∨ caps.obj_type = some "SG_") →
      caps.attr_name ≠ "BU_" → caps.attr_name ≠ "BO_" → caps.attr_name ≠ "SG_" →
      caps.attr_type ≠ "BU_" → caps.attr_type ≠ "BO_" → caps.attr_type ≠ "SG_" →
      caps.attr_config ≠ some "BU_" → caps.attr_config ≠ some "BO_" →
      caps.attr_config ≠ some "SG_" →
      attrObjTypeOf caps =
        (match caps.obj_type with
         | some "BU_" => AttrObjType.node
         | some "BO_" => AttrObjType.message
         | some "SG_" => AttrObjType.signal
         | _ => AttrObjType.bus)) :=
  ⟨rfl, attrObjTypeOf_marker⟩

/-- C7 witness: the concrete captures of the terminated record. -/
theorem c7_attribute_definition_amended_witness :
    attrObjTypeOf baCapsCycle = AttrObjType.message :=
  c7_attribute_definition_amended.2 baCapsCycle (Or.inr (Or.inr (Or.inl rfl)))
    (by decide) (by decide) (by decide) (by decide) (by decide) (by decide)
    (by decide) (by decide) (by decide)

/-- C8 counterexample: while the continuation is active, the line
`mid"; more` contains the pair `";` (its removal changes the line) but does
NOT terminate the continuation, because the code only checks whether the
STRIPPED LINE ENDS with `";` — the first mid-line occurrence is simply
appended to the buffer. -/
theorem c8_terminator_counterexample :
    removeQuoteSemiL "mid\"; more".data ≠ "mid\"; more".data
    ∧ parse_line contState "mid\"; more" =
      .ok { contState with mode := .multiline .bus ("x\n" ++ "mid\"; more") } :=
  ⟨by decide, rfl⟩

/-- C8 amended: a continuation line terminates the continuation if and only
if its stripped form ENDS with the two characters `";`; a terminating line
has every `";` occurrence removed before assignment (no escaping exists),
and a non-terminating line is appended whole — mid-line occurrences of `";`
do not terminate. -/
theorem c8_terminator_amended (s : ParserState) (t : DescTarget) (buf line : String)
    (hf : s.force_multiline = true) (hm : s.mode = .multiline t buf) :
    (endsWithQuoteSemi line = true →
       parse_line s line =
         .ok { canbus := s.canbus.setDescription t (buf ++ removeQuoteSemi line),
               mode := .normal, force_multiline := false })
  ∧ (endsWithQuoteSemi line = false →
       parse_line s line = .ok { s with mode := .multiline t (buf ++ line) }) :=
  ⟨fun h => parse_multiline_step_end line hf hm h,
   fun h => parse_multiline_step_cont line hf hm h⟩

/-- C8 witness: both directions at concrete lines. -/
theorem c8_terminator_amended_witness :
    parse_line contState "done\";" =
      .ok { canbus := CANBus.empty.setDescription .bus ("x\n" ++ removeQuoteSemi "done\";"),
            mode := .normal, force_multiline := false }
    ∧ parse_line contState "has\"; inside" =
      .ok { contState with mode := .multiline .bus ("x\n" ++ "has\"; inside") } :=
  ⟨(c8_terminator_amended contState .bus "x\n" "done\";" rfl rfl).1 rfl,
   (c8_terminator_amended contState .bus "x\n" "has\"; inside" rfl rfl).2 rfl⟩

/-- C9: a line starting with none of the seven keyword prefixes, processed
while no continuation is active, is silently ignored: no error is raised
and the state (graph, mode, message context, continuation flag) is returned
unchanged. -/
theorem c9_unrecognized_line_ignored (s : ParserState) (cs : List Char)
    (hf : s.force_multiline = false)
    (h1 : startsWithL "VERSION".data cs = false) (h2 : startsWithL "BU_".data cs = false)
    (h3 : startsWithL "BO_".data cs = false) (h4 : startsWithL "SG_".data cs = false)
    (h5 : startsWithL "CM_".data cs = false) (h6 : startsWithL "BS_".data cs = false)
    (h7 : startsWithL "BA_DEF_".data cs = false) :
    parse_lineL s cs = .ok s := by
  simp [parse_lineL, hf, h1, h2, h3, h4, h5, h6, h7]

/-- C9 witness: an unrecognized record kind in the initial state. -/
theorem c9_unrecognized_line_ignored_witness :
    parse_lineL initState "VAL_ 100 RPM 0 \"off\" 1 \"on\";".data = .ok initState :=
  c9_unrecognized_line_ignored initState _ rfl rfl rfl rfl rfl rfl rfl rfl

/-- C10 counterexample: `parse_file` resets `_canbus` but neither `_mode`
nor `_force_parser`.  A first invocation on `CM_ "unterminated` ends with
the continuation still armed; a second invocation on `BU_: N1` then feeds
its only line to the continuation handler instead of the node grammar and
returns an EMPTY graph, while a fresh parser returns a graph with node
`N1`: the result of a parse does depend on earlier invocations. -/
theorem c10_cross_invocation_counterexample :
    parse_file initState ["CM_ \"unterminated"] =
      .ok (CANBus.empty,
        { canbus := CANBus.empty, mode := .multiline .bus "unterminated\n",
          force_multiline := true })
    ∧ parse_file_bus
        { canbus := CANBus.empty, mode := .multiline .bus "unterminated\n",
          force_multiline := true } ["BU_: N1"] = .ok CANBus.empty
    ∧ parse_file_bus initState ["BU_: N1"] =
        .ok { version := none, speed := none, description := none,
              nodes := [{ name := "N1", messages := [], description := none }],
              attribute_definitions := [] }
    ∧ CANBus.empty ≠
        { version := none, speed := none, description := none,
          nodes := [{ name := "N1", messages := [], description := none }],
          attribute_definitions := [] } :=
  ⟨rfl, rfl, rfl, by decide⟩

/-- C10 amended: the result of `parse_file` depends only on the input lines
PROVIDED the dispatcher is in normal mode with no armed continuation when
the invocation starts (as after `__init__`); mode and continuation state do
persist across invocations, only the graph is reset. -/
theorem c10_cross_invocation_amended (s : ParserState) (ls : List String)
    (hm : s.mode = .normal) (hf : s.force_multiline = false) :
    parse_file s ls = parse_file initState ls := by
  unfold parse_file
  rw [hm, hf]
  rfl

/-- C10 witness: a parser whose previous invocation left a populated graph
but a clean dispatcher behaves like a fresh parser. -/
theorem c10_cross_invocation_amended_witness :
    parse_file
      { canbus := { version := some "1.0", speed := none, description := none,
                    nodes := [{ name := "OLD", messages := [], description := none }],
                    attribute_definitions := [] },
        mode := .normal, force_multiline := false } ["BU_: N2"] =
      parse_file initState ["BU_: N2"] :=
  c10_cross_invocation_amended _ ["BU_: N2"] rfl rfl

end
